import Mathlib

/-!
Shallow embedding of `api.py` from the `odoo-xmlrpc-python` repository.

The Python class `OdooAPI` wraps two XML-RPC endpoints.  We model the remote
server as an oracle `Server : RemoteCall → Except Exc PyVal`, the mutable
instance state as the structure `OdooAPI`, and every method as a pure function
returning a `Res α`: the method's outcome (`Except Exc α`, where `Except.error`
models a raised Python exception), the instance state after the call, the list
of remote calls issued (in order), and the log entries emitted (in order).
The unbounded `while True` pagination loop of `read_records` is embedded with
an explicit fuel parameter; `Option.none` means the fuel ran out before the
loop finished.
-/

/-- Python-style values exchanged with the XML-RPC server.  `PyVal.none`
models Python `None`. -/
inductive PyVal where
  | none
  | bool (b : Bool)
  | int (n : Int)
  | str (s : String)
  | list (xs : List PyVal)
  | dict (kvs : List (String × PyVal))

/-- Python truthiness, `bool(v)`, as used by `if not self.uid` (line 59) and
`if not records` (line 109) and `domain or []` (line 108). -/
def PyVal.truthy : PyVal → Bool
  | PyVal.none => false
  | PyVal.bool b => b
  | PyVal.int n => n != 0
  | PyVal.str s => s != ""
  | PyVal.list xs => !xs.isEmpty
  | PyVal.dict kvs => !kvs.isEmpty

/-- Python iteration of a value, as used by `all_records.extend(records)`
(line 112): a list yields its elements, a string its one-character strings, a
dict its keys; non-iterable values (`None`, booleans, integers) yield
`Option.none`, which the loop turns into a raised `TypeError`. -/
def PyVal.iterElems : PyVal → Option (List PyVal)
  | PyVal.list xs => some xs
  | PyVal.str s => some (s.toList.map fun ch => PyVal.str (String.singleton ch))
  | PyVal.dict kvs => some (kvs.map fun kv => PyVal.str kv.1)
  | _ => Option.none

/-- Arguments of `common_proxy.authenticate(db, username, password, {})`. -/
structure AuthArgs where
  db : String
  user : String
  pwd : String
  opts : List (String × PyVal)

/-- Arguments of
`models_proxy.execute_kw(db_name, uid, password, model, method, args)`. -/
structure ExecArgs where
  db : String
  uid : PyVal
  pwd : String
  model : String
  method : String
  args : List PyVal

/-- A remote call issued over one of the two XML-RPC endpoints: an
authentication call on `/xmlrpc/2/common` or a model-method call on
`/xmlrpc/2/object`. -/
inductive RemoteCall where
  | auth (a : AuthArgs)
  | exec (a : ExecArgs)

/-- The `uid` field a model call carries, if it is a model call.  Used to
state both "this trace contains no authentication call" and "every model call
in this trace reuses identity `u`" at once. -/
def RemoteCall.execUid : RemoteCall → Option PyVal
  | RemoteCall.auth _ => Option.none
  | RemoteCall.exec a => some a.uid

/-- Exceptions a remote call can raise: `xmlrpc.client.Fault` (a
protocol-level fault carrying the server's `faultString`) or any other
exception (transport errors etc.). -/
inductive Exc where
  | fault (faultString : String)
  | other (msg : String)

/-- A log entry emitted through `self.logger`, at error or info severity. -/
inductive LogEntry where
  | error (msg : String)
  | info (msg : String)

/-- The remote server, as a pure oracle answering each remote call with a
value or a raised exception. -/
def Server : Type := RemoteCall → Except Exc PyVal

/-- The state of an `OdooAPI` instance: the four credentials stored by
`__init__`, the cached `uid` (`PyVal.none` models the initial `None`), and
the two endpoint URLs the constructor binds the proxies to. -/
structure OdooAPI where
  base_url : String
  db_name : String
  username : String
  password : String
  uid : PyVal
  common_url : String
  models_url : String

/-- `OdooAPI.__init__` (lines 5-25): store the credentials, set `uid = None`,
bind the two endpoint proxies to fixed sub-paths of the base URL. -/
def OdooAPI.init (base_url db_name username password : String) : OdooAPI :=
  { base_url := base_url
    db_name := db_name
    username := username
    password := password
    uid := PyVal.none
    common_url := base_url ++ "/xmlrpc/2/common"
    models_url := base_url ++ "/xmlrpc/2/object" }

/-- Outcome of running one method: result (or raised exception), instance
state after the call, remote calls issued in order, log entries emitted in
order. -/
structure Res (α : Type) where
  result : Except Exc α
  state : OdooAPI
  calls : List RemoteCall
  log : List LogEntry

/-- The authentication call `authenticate` issues (line 37):
`common_proxy.authenticate(self.db_name, self.username, self.password, {})`. -/
def authCallOf (c : OdooAPI) : RemoteCall :=
  RemoteCall.auth ⟨c.db_name, c.username, c.password, []⟩

/-- The model call `execute_kw` issues (line 62):
`models_proxy.execute_kw(self.db_name, self.uid, self.password, model, method, args)`. -/
def execCallOf (c : OdooAPI) (model method : String) (args : List PyVal) : RemoteCall :=
  RemoteCall.exec ⟨c.db_name, c.uid, c.password, model, method, args⟩

/-- `OdooAPI.authenticate` (lines 27-43): return immediately if `uid` is not
`None`; otherwise issue the authentication call and store its result in
`uid`.  A `Fault` is logged as `Authentication failed: ...` and re-raised;
any other exception is logged as `Unexpected error during authentication: ...`
and re-raised. -/
def OdooAPI.authenticate (c : OdooAPI) (srv : Server) : Res Unit :=
  match c.uid with
  | PyVal.none =>
    match srv (authCallOf c) with
    | Except.ok v => ⟨Except.ok (), { c with uid := v }, [authCallOf c], []⟩
    | Except.error (Exc.fault s) =>
        ⟨Except.error (Exc.fault s), c, [authCallOf c],
         [LogEntry.error ("Authentication failed: " ++ s)]⟩
    | Except.error (Exc.other m) =>
        ⟨Except.error (Exc.other m), c, [authCallOf c],
         [LogEntry.error ("Unexpected error during authentication: " ++ m)]⟩
  | _ => ⟨Except.ok (), c, [], []⟩

/-- `OdooAPI.execute_kw` (lines 45-65): if `uid` is falsy, call
`authenticate` first (whose exceptions propagate uncaught); then issue the
model call.  A `Fault` from the model call is logged as
`Odoo API call failed: ...` and re-raised; any other exception from the model
call is re-raised without being caught (and hence without a log entry, since
the `try` block only catches `xmlrpc.client.Fault`). -/
def OdooAPI.execute_kw (c : OdooAPI) (srv : Server) (model method : String)
    (args : List PyVal) : Res PyVal :=
  let pre : Res Unit :=
    if c.uid.truthy then ⟨Except.ok (), c, [], []⟩ else c.authenticate srv
  match pre.result with
  | Except.error e => ⟨Except.error e, pre.state, pre.calls, pre.log⟩
  | Except.ok _ =>
    match srv (execCallOf pre.state model method args) with
    | Except.ok v =>
        ⟨Except.ok v, pre.state,
         pre.calls ++ [execCallOf pre.state model method args], pre.log⟩
    | Except.error (Exc.fault s) =>
        ⟨Except.error (Exc.fault s), pre.state,
         pre.calls ++ [execCallOf pre.state model method args],
         pre.log ++ [LogEntry.error ("Odoo API call failed: " ++ s)]⟩
    | Except.error (Exc.other m) =>
        ⟨Except.error (Exc.other m), pre.state,
         pre.calls ++ [execCallOf pre.state model method args], pre.log⟩

/-- `OdooAPI.create_record` (lines 67-85): `execute_kw(model, 'create',
[values])`, returning the result; a `Fault` is additionally logged as
`Create operation failed: ...` and re-raised. -/
def OdooAPI.create_record (c : OdooAPI) (srv : Server) (model : String)
    (values : PyVal) : Res PyVal :=
  let r := c.execute_kw srv model "create" [values]
  match r.result with
  | Except.error (Exc.fault s) =>
      ⟨r.result, r.state, r.calls,
       r.log ++ [LogEntry.error ("Create operation failed: " ++ s)]⟩
  | _ => r

/-- The `while True` body of `read_records` (lines 107-114), with explicit
fuel.  Each iteration issues a `search_read` model call; an exception from it
propagates (terminating the loop and discarding `acc`); a falsy result breaks
out of the loop, logging `No records to retrieve.` and then the final
`Total records retrieved: ...`; otherwise the records are appended, the
offset advanced by `limit`, and the loop repeats. -/
def OdooAPI.readLoop (srv : Server) (model : String) (dom fl : PyVal)
    (limit : Int) (order : String) :
    OdooAPI → Int → List PyVal → Nat → Nat → Option (Res (List PyVal))
  | _, _, _, _, 0 => Option.none
  | c, offset, acc, total, fuel+1 =>
    let r := c.execute_kw srv model "search_read"
      [dom, fl, PyVal.int offset, PyVal.int limit, PyVal.str order]
    match r.result with
    | Except.error e => some ⟨Except.error e, r.state, r.calls, r.log⟩
    | Except.ok v =>
      if v.truthy then
        match v.iterElems with
        | some recs =>
          match OdooAPI.readLoop srv model dom fl limit order r.state
              (offset + limit) (acc ++ recs) (total + recs.length) fuel with
          | Option.none => Option.none
          | some rest =>
              some ⟨rest.result, rest.state, r.calls ++ rest.calls, r.log ++ rest.log⟩
        | Option.none =>
            some ⟨Except.error (Exc.other "TypeError: extend argument is not iterable"),
                  r.state, r.calls, r.log⟩
      else
        some ⟨Except.ok acc, r.state, r.calls,
              r.log ++ [LogEntry.info "No records to retrieve.",
                        LogEntry.info ("Total records retrieved: " ++ toString total)]⟩

/-- `OdooAPI.read_records` (lines 87-116): run the pagination loop starting
from `all_records = []`, `total_records = 0`, with `domain or []` and
`fields or []` applied once to the parameters. -/
def OdooAPI.read_records (c : OdooAPI) (srv : Server) (model : String)
    (domain fields : PyVal) (offset limit : Int) (order : String)
    (fuel : Nat) : Option (Res (List PyVal)) :=
  OdooAPI.readLoop srv model
    (if domain.truthy then domain else PyVal.list [])
    (if fields.truthy then fields else PyVal.list [])
    limit order c offset [] 0 fuel

/-- The `search_read` call issued by iteration of `read_records` at a given
offset (line 108), with the `domain or []` / `fields or []` defaulting
applied. -/
def readCallAt (c : OdooAPI) (model : String) (domain fields : PyVal)
    (offset limit : Int) (order : String) : RemoteCall :=
  RemoteCall.exec ⟨c.db_name, c.uid, c.password, model, "search_read",
    [(if domain.truthy then domain else PyVal.list []),
     (if fields.truthy then fields else PyVal.list []),
     PyVal.int offset, PyVal.int limit, PyVal.str order]⟩

/-- `OdooAPI.update_record` (lines 118-134): `execute_kw(model, 'write',
[[record_id], values])`, discarding the result; a `Fault` is additionally
logged as `Update operation failed: ...` and re-raised. -/
def OdooAPI.update_record (c : OdooAPI) (srv : Server) (model : String)
    (record_id values : PyVal) : Res Unit :=
  let r := c.execute_kw srv model "write" [PyVal.list [record_id], values]
  match r.result with
  | Except.ok _ => ⟨Except.ok (), r.state, r.calls, r.log⟩
  | Except.error (Exc.fault s) =>
      ⟨Except.error (Exc.fault s), r.state, r.calls,
       r.log ++ [LogEntry.error ("Update operation failed: " ++ s)]⟩
  | Except.error e => ⟨Except.error e, r.state, r.calls, r.log⟩

/-- `OdooAPI.delete_record` (lines 136-151): `execute_kw(model, 'unlink',
[[record_id]])`, discarding the result; a `Fault` is additionally logged as
`Delete operation failed: ...` and re-raised. -/
def OdooAPI.delete_record (c : OdooAPI) (srv : Server) (model : String)
    (record_id : PyVal) : Res Unit :=
  let r := c.execute_kw srv model "unlink" [PyVal.list [record_id]]
  match r.result with
  | Except.ok _ => ⟨Except.ok (), r.state, r.calls, r.log⟩
  | Except.error (Exc.fault s) =>
      ⟨Except.error (Exc.fault s), r.state, r.calls,
       r.log ++ [LogEntry.error ("Delete operation failed: " ++ s)]⟩
  | Except.error e => ⟨Except.error e, r.state, r.calls, r.log⟩

/-- The read operation terminates: some amount of fuel suffices for the
pagination loop to finish. -/
def ReadTerminates (srv : Server) (c : OdooAPI) (model : String)
    (domain fields : PyVal) (offset limit : Int) (order : String) : Prop :=
  ∃ fuel r, c.read_records srv model domain fields offset limit order fuel = some r

/-- The credentials stored at construction: base address, database name,
username, secret. -/
def creds (c : OdooAPI) : String × String × String × String :=
  (c.base_url, c.db_name, c.username, c.password)

/-- The outcome of `execute_kw`'s model call as a function of the server's
response, when the identity is already set (so the state is `c` throughout). -/
def wrapExec (c : OdooAPI) (call : RemoteCall) : Except Exc PyVal → Res PyVal
  | Except.ok v => ⟨Except.ok v, c, [call], []⟩
  | Except.error (Exc.fault s) =>
      ⟨Except.error (Exc.fault s), c, [call],
       [LogEntry.error ("Odoo API call failed: " ++ s)]⟩
  | Except.error (Exc.other m) => ⟨Except.error (Exc.other m), c, [call], []⟩

/-- The `search_read` call issued by an iteration of the pagination loop at a
given offset, for a client whose identity is set. -/
def searchCallAt (c : OdooAPI) (model : String) (dom fl : PyVal)
    (offset limit : Int) (order : String) : RemoteCall :=
  execCallOf c model "search_read"
    [dom, fl, PyVal.int offset, PyVal.int limit, PyVal.str order]

/-! ### Concrete fixtures used by witnesses and counterexamples -/

/-- A fresh client, exactly as `__init__` builds it. -/
def cFresh : OdooAPI := OdooAPI.init "https://odoo.example.org" "mydb" "alice" "secret"

/-- The same client after a successful authentication stored user id 7. -/
def cAuth : OdooAPI := { cFresh with uid := PyVal.int 7 }

/-- Server: authentication succeeds with user id 7; every model call returns
an empty record list. -/
def srvAuthOk : Server := fun call =>
  match call with
  | RemoteCall.auth _ => Except.ok (PyVal.int 7)
  | RemoteCall.exec _ => Except.ok (PyVal.list [])

/-- Server: authentication succeeds; every model call returns the record
identifier 77. -/
def srvId77 : Server := fun call =>
  match call with
  | RemoteCall.auth _ => Except.ok (PyVal.int 7)
  | RemoteCall.exec _ => Except.ok (PyVal.int 77)

/-- Server for the pagination scenario with limit 2: two records at offset 0,
two records at offset 2, an empty page at every other offset. -/
def srv220 : Server := fun call =>
  match call with
  | RemoteCall.auth _ => Except.error (Exc.other "unexpected authentication")
  | RemoteCall.exec a =>
    match a.args with
    | [_, _, PyVal.int off, _, _] =>
      if off = 0 then Except.ok (PyVal.list [PyVal.int 1, PyVal.int 2])
      else if off = 2 then Except.ok (PyVal.list [PyVal.int 3, PyVal.int 4])
      else Except.ok (PyVal.list [])
    | _ => Except.error (Exc.other "bad arguments")

/-- The pages served by `srv220` at offsets 0, 2, 4, ... -/
def pages220 : Nat → List PyVal := fun i =>
  if i = 0 then [PyVal.int 1, PyVal.int 2]
  else if i = 1 then [PyVal.int 3, PyVal.int 4]
  else []

/-- Server returning one record on every page: each page is shorter than
limit 2, yet never empty. -/
def srvShort : Server := fun call =>
  match call with
  | RemoteCall.auth _ => Except.ok (PyVal.int 7)
  | RemoteCall.exec _ => Except.ok (PyVal.list [PyVal.int 1])

/-- Server: authentication succeeds with user id 7, but every model call
reports a protocol-level fault. -/
def srvFault : Server := fun call =>
  match call with
  | RemoteCall.auth _ => Except.ok (PyVal.int 7)
  | RemoteCall.exec _ => Except.error (Exc.fault "boom")

/-- Server raising a non-fault transport error on every model call. -/
def srvOther : Server := fun call =>
  match call with
  | RemoteCall.auth _ => Except.ok (PyVal.int 7)
  | RemoteCall.exec _ => Except.error (Exc.other "connection reset")

/-- Server rejecting the credentials: the authentication call returns the
Python value `False`, as Odoo does for bad credentials. -/
def srvReject : Server := fun call =>
  match call with
  | RemoteCall.auth _ => Except.ok (PyVal.bool false)
  | RemoteCall.exec _ => Except.ok (PyVal.list [])

/-- Server for a fault in the middle of pagination at limit 2: offset 0
yields two records, every other offset faults. -/
def srvFaultPage2 : Server := fun call =>
  match call with
  | RemoteCall.auth _ => Except.ok (PyVal.int 7)
  | RemoteCall.exec a =>
    match a.args with
    | [_, _, PyVal.int off, _, _] =>
      if off = 0 then Except.ok (PyVal.list [PyVal.int 1, PyVal.int 2])
      else Except.error (Exc.fault "boom")
    | _ => Except.error (Exc.other "bad arguments")

/-! ### Basic lemmas about the primitive operations -/

theorem authenticate_noop (c : OdooAPI) (srv : Server) (h : c.uid ≠ PyVal.none) :
    c.authenticate srv = ⟨Except.ok (), c, [], []⟩ := by
  unfold OdooAPI.authenticate
  cases hu : c.uid <;> first | exact absurd hu h | rfl

theorem execute_kw_set (c : OdooAPI) (srv : Server) (model method : String)
    (args : List PyVal) (h : c.uid ≠ PyVal.none) :
    c.execute_kw srv model method args =
      wrapExec c (execCallOf c model method args)
        (srv (execCallOf c model method args)) := by
  unfold OdooAPI.execute_kw
  by_cases ht : c.uid.truthy
  · simp only [ht, if_true]
    cases hr : srv (execCallOf c model method args) with
    | ok v => simp [wrapExec, hr]
    | error e => cases e <;> simp [wrapExec, hr]
  · simp only [ht]
    rw [if_neg (by simp [ht])]
    rw [authenticate_noop c srv h]
    cases hr : srv (execCallOf c model method args) with
    | ok v => simp [wrapExec, hr]
    | error e => cases e <;> simp [wrapExec, hr]

/-- Projections of `wrapExec`. -/
theorem wrapExec_result (c : OdooAPI) (call : RemoteCall) (resp : Except Exc PyVal) :
    (wrapExec c call resp).result = resp := by
  cases resp with
  | ok v => rfl
  | error e => cases e <;> rfl

theorem wrapExec_state (c : OdooAPI) (call : RemoteCall) (resp : Except Exc PyVal) :
    (wrapExec c call resp).state = c := by
  cases resp with
  | ok v => rfl
  | error e => cases e <;> rfl

theorem wrapExec_calls (c : OdooAPI) (call : RemoteCall) (resp : Except Exc PyVal) :
    (wrapExec c call resp).calls = [call] := by
  cases resp with
  | ok v => rfl
  | error e => cases e <;> rfl

/-- With the identity set, a terminating run of the pagination loop leaves
the instance state unchanged and issues only `search_read` model calls that
reuse the stored identity (in particular, no authentication call). -/
theorem readLoop_preserve (srv : Server) (model : String) (dom fl : PyVal)
    (L : Int) (ord : String) (c : OdooAPI) (h : c.uid ≠ PyVal.none) :
    ∀ (fuel : Nat) (o : Int) (acc : List PyVal) (total : Nat) (r : Res (List PyVal)),
      OdooAPI.readLoop srv model dom fl L ord c o acc total fuel = some r →
      r.state = c ∧ ∀ call ∈ r.calls, call.execUid = some c.uid := by
  intro fuel
  induction fuel with
  | zero =>
    intro o acc total r hr
    simp [OdooAPI.readLoop] at hr
  | succ n ih =>
    intro o acc total r hr
    simp only [OdooAPI.readLoop] at hr
    rw [execute_kw_set c srv model "search_read"
      [dom, fl, PyVal.int o, PyVal.int L, PyVal.str ord] h] at hr
    simp only [wrapExec_result, wrapExec_state, wrapExec_calls] at hr
    split at hr
    · -- server raised: the loop stops with state `c` and the single call
      simp only [Option.some.injEq] at hr
      subst hr
      refine ⟨rfl, ?_⟩
      intro call hc
      simp only [List.mem_singleton] at hc
      subst hc
      rfl
    · -- server returned a value
      split at hr
      · -- truthy page
        split at hr
        · -- iterable page: recurse
          split at hr
          · exact absurd hr (by simp)
          · rename_i rest hrec
            simp only [Option.some.injEq] at hr
            subst hr
            obtain ⟨hs, hcalls⟩ := ih _ _ _ rest hrec
            refine ⟨hs, ?_⟩
            intro call hc
            simp only [List.singleton_append, List.mem_cons] at hc
            rcases hc with hc | hc
            · subst hc; rfl
            · exact hcalls call hc
        · -- non-iterable page: TypeError stops the loop
          simp only [Option.some.injEq] at hr
          subst hr
          refine ⟨rfl, ?_⟩
          intro call hc
          simp only [List.mem_singleton] at hc
          subst hc
          rfl
      · -- falsy page: break
        simp only [Option.some.injEq] at hr
        subst hr
        refine ⟨rfl, ?_⟩
        intro call hc
        simp only [List.mem_singleton] at hc
        subst hc
        rfl

/-- Loop step, identity set, nonempty page: accumulate and continue. -/
theorem readLoop_cons (srv : Server) (model : String) (dom fl : PyVal)
    (L : Int) (ord : String) (c : OdooAPI) (h : c.uid ≠ PyVal.none)
    (o : Int) (acc : List PyVal) (total : Nat) (n : Nat) (recs : List PyVal)
    (hresp : srv (searchCallAt c model dom fl o L ord) = Except.ok (PyVal.list recs))
    (hne : recs ≠ []) (rest : Res (List PyVal))
    (hrec : OdooAPI.readLoop srv model dom fl L ord c (o + L) (acc ++ recs)
      (total + recs.length) n = some rest) :
    OdooAPI.readLoop srv model dom fl L ord c o acc total (n + 1) =
      some ⟨rest.result, rest.state,
            searchCallAt c model dom fl o L ord :: rest.calls, rest.log⟩ := by
  have hne' : recs.isEmpty = false := by
    cases recs with
    | nil => exact absurd rfl hne
    | cons a as => rfl
  simp only [OdooAPI.readLoop]
  rw [execute_kw_set c srv model "search_read"
    [dom, fl, PyVal.int o, PyVal.int L, PyVal.str ord] h]
  have hresp' : srv (execCallOf c model "search_read"
      [dom, fl, PyVal.int o, PyVal.int L, PyVal.str ord]) = Except.ok (PyVal.list recs) := hresp
  simp [wrapExec, hresp', PyVal.truthy, PyVal.iterElems, hne', hrec, searchCallAt]

/-- Loop step, identity set, nonempty page, fuel exhausted downstream. -/
theorem readLoop_cons_none (srv : Server) (model : String) (dom fl : PyVal)
    (L : Int) (ord : String) (c : OdooAPI) (h : c.uid ≠ PyVal.none)
    (o : Int) (acc : List PyVal) (total : Nat) (n : Nat) (recs : List PyVal)
    (hresp : srv (searchCallAt c model dom fl o L ord) = Except.ok (PyVal.list recs))
    (hne : recs ≠ [])
    (hrec : OdooAPI.readLoop srv model dom fl L ord c (o + L) (acc ++ recs)
      (total + recs.length) n = Option.none) :
    OdooAPI.readLoop srv model dom fl L ord c o acc total (n + 1) = Option.none := by
  have hne' : recs.isEmpty = false := by
    cases recs with
    | nil => exact absurd rfl hne
    | cons a as => rfl
  simp only [OdooAPI.readLoop]
  rw [execute_kw_set c srv model "search_read"
    [dom, fl, PyVal.int o, PyVal.int L, PyVal.str ord] h]
  have hresp' : srv (execCallOf c model "search_read"
      [dom, fl, PyVal.int o, PyVal.int L, PyVal.str ord]) = Except.ok (PyVal.list recs) := hresp
  simp [wrapExec, hresp', PyVal.truthy, PyVal.iterElems, hne', hrec]

/-- Loop step, identity set, empty page: break, log, and return `acc`. -/
theorem readLoop_break (srv : Server) (model : String) (dom fl : PyVal)
    (L : Int) (ord : String) (c : OdooAPI) (h : c.uid ≠ PyVal.none)
    (o : Int) (acc : List PyVal) (total : Nat) (n : Nat)
    (hresp : srv (searchCallAt c model dom fl o L ord) = Except.ok (PyVal.list [])) :
    OdooAPI.readLoop srv model dom fl L ord c o acc total (n + 1) =
      some ⟨Except.ok acc, c, [searchCallAt c model dom fl o L ord],
            [LogEntry.info "No records to retrieve.",
             LogEntry.info ("Total records retrieved: " ++ toString total)]⟩ := by
  simp only [OdooAPI.readLoop]
  rw [execute_kw_set c srv model "search_read"
    [dom, fl, PyVal.int o, PyVal.int L, PyVal.str ord] h]
  have hresp' : srv (execCallOf c model "search_read"
      [dom, fl, PyVal.int o, PyVal.int L, PyVal.str ord]) = Except.ok (PyVal.list []) := hresp
  simp [wrapExec, hresp', PyVal.truthy, searchCallAt]

/-- Loop step, identity set, protocol fault: the exception propagates out of
the loop after `execute_kw`'s log entry, discarding `acc`. -/
theorem readLoop_fault_step (srv : Server) (model : String) (dom fl : PyVal)
    (L : Int) (ord : String) (c : OdooAPI) (h : c.uid ≠ PyVal.none)
    (o : Int) (acc : List PyVal) (total : Nat) (n : Nat) (s : String)
    (hresp : srv (searchCallAt c model dom fl o L ord) = Except.error (Exc.fault s)) :
    OdooAPI.readLoop srv model dom fl L ord c o acc total (n + 1) =
      some ⟨Except.error (Exc.fault s), c, [searchCallAt c model dom fl o L ord],
            [LogEntry.error ("Odoo API call failed: " ++ s)]⟩ := by
  simp only [OdooAPI.readLoop]
  rw [execute_kw_set c srv model "search_read"
    [dom, fl, PyVal.int o, PyVal.int L, PyVal.str ord] h]
  have hresp' : srv (execCallOf c model "search_read"
      [dom, fl, PyVal.int o, PyVal.int L, PyVal.str ord]) = Except.error (Exc.fault s) := hresp
  simp [wrapExec, hresp', searchCallAt]

theorem range_succ_flatMap (k : Nat) (f : Nat → List PyVal) :
    (List.range (k + 1)).flatMap f = f 0 ++ (List.range k).flatMap (fun i => f (i + 1)) := by
  rw [List.range_succ_eq_map]
  simp [List.flatMap_map, Function.comp]

theorem range_succ_map_shift {α : Type} (k : Nat) (f : Nat → α) :
    (List.range (k + 1)).map f = f 0 :: (List.range k).map (fun i => f (i + 1)) := by
  rw [List.range_succ_eq_map]
  simp [Function.comp]

/-- Main pagination lemma: with the identity set, if the server answers the
`search_read` calls at offsets `o, o+L, ..., o+(k-1)L` with the nonempty
record pages `pages 0, ..., pages (k-1)` and the call at offset `o+kL` with
an empty page, the loop returns the concatenation of the pages in request
order, issues exactly those `k+1` calls in order, leaves the state unchanged,
and logs the two info messages. -/
theorem readLoop_pages (srv : Server) (model : String) (dom fl : PyVal)
    (L : Int) (ord : String) (c : OdooAPI) (h : c.uid ≠ PyVal.none) :
    ∀ (k : Nat) (pages : Nat → List PyVal) (o : Int) (acc : List PyVal)
      (total : Nat) (fuel : Nat),
      k + 1 ≤ fuel →
      (∀ i, i < k → srv (searchCallAt c model dom fl (o + (i : Int) * L) L ord)
          = Except.ok (PyVal.list (pages i)) ∧ pages i ≠ []) →
      srv (searchCallAt c model dom fl (o + (k : Int) * L) L ord)
          = Except.ok (PyVal.list []) →
      OdooAPI.readLoop srv model dom fl L ord c o acc total fuel =
        some ⟨Except.ok (acc ++ (List.range k).flatMap pages), c,
              (List.range (k + 1)).map
                (fun i : Nat => searchCallAt c model dom fl (o + (i : Int) * L) L ord),
              [LogEntry.info "No records to retrieve.",
               LogEntry.info ("Total records retrieved: "
                 ++ toString (total + ((List.range k).flatMap pages).length))]⟩ := by
  intro k
  induction k with
  | zero =>
    intro pages o acc total fuel hfuel hpages hempty
    obtain ⟨n, rfl⟩ : ∃ n, fuel = n + 1 := ⟨fuel - 1, by omega⟩
    have hresp : srv (searchCallAt c model dom fl o L ord) = Except.ok (PyVal.list []) := by
      simpa using hempty
    rw [readLoop_break srv model dom fl L ord c h o acc total n hresp]
    refine congrArg some ?_
    rw [Res.mk.injEq]
    refine ⟨by simp, rfl, ?_, by simp⟩
    simp [List.range_succ]
  | succ k ihk =>
    intro pages o acc total fuel hfuel hpages hempty
    obtain ⟨n, rfl⟩ : ∃ n, fuel = n + 1 := ⟨fuel - 1, by omega⟩
    obtain ⟨h0, h0ne⟩ := hpages 0 (Nat.succ_pos k)
    have h0' : srv (searchCallAt c model dom fl o L ord)
        = Except.ok (PyVal.list (pages 0)) := by
      simpa using h0
    have hshift : ∀ (i : Nat), (o + L) + (i : Int) * L = o + ((i + 1 : Nat) : Int) * L := by
      intro i
      push_cast
      ring
    have hrec := ihk (fun i => pages (i + 1)) (o + L) (acc ++ pages 0)
      (total + (pages 0).length) n (by omega)
      (by
        intro i hi
        have hp := hpages (i + 1) (by omega)
        rw [hshift i]
        exact hp)
      (by
        rw [hshift k]
        exact hempty)
    rw [readLoop_cons srv model dom fl L ord c h o acc total n (pages 0) h0' h0ne _ hrec]
    refine congrArg some ?_
    have hres : (acc ++ pages 0) ++ (List.range k).flatMap (fun i => pages (i + 1))
        = acc ++ (List.range (k + 1)).flatMap pages := by
      rw [range_succ_flatMap k pages, List.append_assoc]
    have hcalls : searchCallAt c model dom fl o L ord ::
          (List.range (k + 1)).map
            (fun i : Nat => searchCallAt c model dom fl ((o + L) + (i : Int) * L) L ord)
        = (List.range (k + 1 + 1)).map
            (fun i : Nat => searchCallAt c model dom fl (o + (i : Int) * L) L ord) := by
      rw [range_succ_map_shift (k + 1)
        (fun i : Nat => searchCallAt c model dom fl (o + (i : Int) * L) L ord)]
      refine congrArg₂ _ (by simp) ?_
      refine List.map_congr_left ?_
      intro i _
      rw [hshift i]
    have hlen : total + (pages 0).length
          + ((List.range k).flatMap (fun i => pages (i + 1))).length
        = total + ((List.range (k + 1)).flatMap pages).length := by
      rw [range_succ_flatMap k pages]
      simp [List.length_append]
      omega
    rw [Res.mk.injEq]
    refine ⟨by rw [hres], rfl, by rw [hcalls], by rw [hlen]⟩

/-- Loop step, identity set, non-fault exception: propagates without a log
entry. -/
theorem readLoop_other_step (srv : Server) (model : String) (dom fl : PyVal)
    (L : Int) (ord : String) (c : OdooAPI) (h : c.uid ≠ PyVal.none)
    (o : Int) (acc : List PyVal) (total : Nat) (n : Nat) (m : String)
    (hresp : srv (searchCallAt c model dom fl o L ord) = Except.error (Exc.other m)) :
    OdooAPI.readLoop srv model dom fl L ord c o acc total (n + 1) =
      some ⟨Except.error (Exc.other m), c, [searchCallAt c model dom fl o L ord], []⟩ := by
  simp only [OdooAPI.readLoop]
  rw [execute_kw_set c srv model "search_read"
    [dom, fl, PyVal.int o, PyVal.int L, PyVal.str ord] h]
  have hresp' : srv (execCallOf c model "search_read"
      [dom, fl, PyVal.int o, PyVal.int L, PyVal.str ord]) = Except.error (Exc.other m) := hresp
  simp [wrapExec, hresp', searchCallAt]

/-- Loop step, identity set, falsy page of any shape: break. -/
theorem readLoop_break_general (srv : Server) (model : String) (dom fl : PyVal)
    (L : Int) (ord : String) (c : OdooAPI) (h : c.uid ≠ PyVal.none)
    (o : Int) (acc : List PyVal) (total : Nat) (n : Nat) (v : PyVal)
    (hresp : srv (searchCallAt c model dom fl o L ord) = Except.ok v)
    (hv : v.truthy = false) :
    OdooAPI.readLoop srv model dom fl L ord c o acc total (n + 1) =
      some ⟨Except.ok acc, c, [searchCallAt c model dom fl o L ord],
            [LogEntry.info "No records to retrieve.",
             LogEntry.info ("Total records retrieved: " ++ toString total)]⟩ := by
  simp only [OdooAPI.readLoop]
  rw [execute_kw_set c srv model "search_read"
    [dom, fl, PyVal.int o, PyVal.int L, PyVal.str ord] h]
  have hresp' : srv (execCallOf c model "search_read"
      [dom, fl, PyVal.int o, PyVal.int L, PyVal.str ord]) = Except.ok v := hresp
  simp [wrapExec, hresp', hv, searchCallAt]

/-- Loop step, identity set, truthy non-iterable page: `TypeError`. -/
theorem readLoop_typeerror_step (srv : Server) (model : String) (dom fl : PyVal)
    (L : Int) (ord : String) (c : OdooAPI) (h : c.uid ≠ PyVal.none)
    (o : Int) (acc : List PyVal) (total : Nat) (n : Nat) (v : PyVal)
    (hresp : srv (searchCallAt c model dom fl o L ord) = Except.ok v)
    (hv : v.truthy = true) (hit : v.iterElems = Option.none) :
    OdooAPI.readLoop srv model dom fl L ord c o acc total (n + 1) =
      some ⟨Except.error (Exc.other "TypeError: extend argument is not iterable"),
            c, [searchCallAt c model dom fl o L ord], []⟩ := by
  simp only [OdooAPI.readLoop]
  rw [execute_kw_set c srv model "search_read"
    [dom, fl, PyVal.int o, PyVal.int L, PyVal.str ord] h]
  have hresp' : srv (execCallOf c model "search_read"
      [dom, fl, PyVal.int o, PyVal.int L, PyVal.str ord]) = Except.ok v := hresp
  simp [wrapExec, hresp', hv, hit, searchCallAt]

/-- Loop step, identity set, truthy iterable page of any shape: continue. -/
theorem readLoop_cons_general (srv : Server) (model : String) (dom fl : PyVal)
    (L : Int) (ord : String) (c : OdooAPI) (h : c.uid ≠ PyVal.none)
    (o : Int) (acc : List PyVal) (total : Nat) (n : Nat) (v : PyVal)
    (recs : List PyVal)
    (hresp : srv (searchCallAt c model dom fl o L ord) = Except.ok v)
    (hv : v.truthy = true) (hit : v.iterElems = some recs) (rest : Res (List PyVal))
    (hrec : OdooAPI.readLoop srv model dom fl L ord c (o + L) (acc ++ recs)
      (total + recs.length) n = some rest) :
    OdooAPI.readLoop srv model dom fl L ord c o acc total (n + 1) =
      some ⟨rest.result, rest.state,
            searchCallAt c model dom fl o L ord :: rest.calls, rest.log⟩ := by
  simp only [OdooAPI.readLoop]
  rw [execute_kw_set c srv model "search_read"
    [dom, fl, PyVal.int o, PyVal.int L, PyVal.str ord] h]
  have hresp' : srv (execCallOf c model "search_read"
      [dom, fl, PyVal.int o, PyVal.int L, PyVal.str ord]) = Except.ok v := hresp
  simp [wrapExec, hresp', hv, hit, hrec, searchCallAt]

/-- A protocol fault on page `k+1` (after `k` nonempty pages) propagates out
of the pagination loop: the result is the fault, all accumulated records are
discarded, and the only log entry is `execute_kw`'s. -/
theorem readLoop_fault (srv : Server) (model : String) (dom fl : PyVal)
    (L : Int) (ord : String) (c : OdooAPI) (h : c.uid ≠ PyVal.none) :
    ∀ (k : Nat) (pages : Nat → List PyVal) (o : Int) (acc : List PyVal)
      (total : Nat) (fuel : Nat) (s : String),
      k + 1 ≤ fuel →
      (∀ i, i < k → srv (searchCallAt c model dom fl (o + (i : Int) * L) L ord)
          = Except.ok (PyVal.list (pages i)) ∧ pages i ≠ []) →
      srv (searchCallAt c model dom fl (o + (k : Int) * L) L ord)
          = Except.error (Exc.fault s) →
      OdooAPI.readLoop srv model dom fl L ord c o acc total fuel =
        some ⟨Except.error (Exc.fault s), c,
              (List.range (k + 1)).map
                (fun i : Nat => searchCallAt c model dom fl (o + (i : Int) * L) L ord),
              [LogEntry.error ("Odoo API call failed: " ++ s)]⟩ := by
  intro k
  induction k with
  | zero =>
    intro pages o acc total fuel s hfuel hpages hfault
    obtain ⟨n, rfl⟩ : ∃ n, fuel = n + 1 := ⟨fuel - 1, by omega⟩
    have hresp : srv (searchCallAt c model dom fl o L ord) = Except.error (Exc.fault s) := by
      simpa using hfault
    rw [readLoop_fault_step srv model dom fl L ord c h o acc total n s hresp]
    refine congrArg some ?_
    rw [Res.mk.injEq]
    refine ⟨rfl, rfl, ?_, rfl⟩
    simp [List.range_succ]
  | succ k ihk =>
    intro pages o acc total fuel s hfuel hpages hfault
    obtain ⟨n, rfl⟩ : ∃ n, fuel = n + 1 := ⟨fuel - 1, by omega⟩
    obtain ⟨h0, h0ne⟩ := hpages 0 (Nat.succ_pos k)
    have h0' : srv (searchCallAt c model dom fl o L ord)
        = Except.ok (PyVal.list (pages 0)) := by
      simpa using h0
    have hshift : ∀ (i : Nat), (o + L) + (i : Int) * L = o + ((i + 1 : Nat) : Int) * L := by
      intro i
      push_cast
      ring
    have hrec := ihk (fun i => pages (i + 1)) (o + L) (acc ++ pages 0)
      (total + (pages 0).length) n s (by omega)
      (by
        intro i hi
        have hp := hpages (i + 1) (by omega)
        rw [hshift i]
        exact hp)
      (by
        rw [hshift k]
        exact hfault)
    rw [readLoop_cons srv model dom fl L ord c h o acc total n (pages 0) h0' h0ne _ hrec]
    refine congrArg some ?_
    have hcalls : searchCallAt c model dom fl o L ord ::
          (List.range (k + 1)).map
            (fun i : Nat => searchCallAt c model dom fl ((o + L) + (i : Int) * L) L ord)
        = (List.range (k + 1 + 1)).map
            (fun i : Nat => searchCallAt c model dom fl (o + (i : Int) * L) L ord) := by
      rw [range_succ_map_shift (k + 1)
        (fun i : Nat => searchCallAt c model dom fl (o + (i : Int) * L) L ord)]
      refine congrArg₂ _ (by simp) ?_
      refine List.map_congr_left ?_
      intro i _
      rw [hshift i]
    rw [Res.mk.injEq]
    exact ⟨rfl, rfl, by rw [hcalls], rfl⟩

/-- If some offset in the advancing sequence yields an empty page, the
pagination loop terminates (fuel `k+1` suffices), no matter what the server
answers at the earlier offsets. -/
theorem readLoop_empty_terminates (srv : Server) (model : String) (dom fl : PyVal)
    (L : Int) (ord : String) (c : OdooAPI) (h : c.uid ≠ PyVal.none) :
    ∀ (k : Nat) (o : Int) (acc : List PyVal) (total : Nat),
      srv (searchCallAt c model dom fl (o + (k : Int) * L) L ord)
          = Except.ok (PyVal.list []) →
      ∃ r, OdooAPI.readLoop srv model dom fl L ord c o acc total (k + 1) = some r := by
  intro k
  induction k with
  | zero =>
    intro o acc total hempty
    have hresp : srv (searchCallAt c model dom fl o L ord) = Except.ok (PyVal.list []) := by
      simpa using hempty
    exact ⟨_, readLoop_break srv model dom fl L ord c h o acc total 0 hresp⟩
  | succ k ihk =>
    intro o acc total hempty
    have hshift : (o + L) + (k : Int) * L = o + ((k + 1 : Nat) : Int) * L := by
      push_cast
      ring
    cases hresp : srv (searchCallAt c model dom fl o L ord) with
    | error e =>
      cases e with
      | fault s =>
        exact ⟨_, readLoop_fault_step srv model dom fl L ord c h o acc total (k + 1) s hresp⟩
      | other m =>
        exact ⟨_, readLoop_other_step srv model dom fl L ord c h o acc total (k + 1) m hresp⟩
    | ok v =>
      by_cases hv : v.truthy
      · cases hit : v.iterElems with
        | some recs =>
          obtain ⟨rest, hrest⟩ := ihk (o + L) (acc ++ recs) (total + recs.length)
            (by rw [hshift]; exact hempty)
          exact ⟨_, readLoop_cons_general srv model dom fl L ord c h o acc total (k + 1)
            v recs hresp hv hit rest hrest⟩
        | none =>
          exact ⟨_, readLoop_typeerror_step srv model dom fl L ord c h o acc total (k + 1)
            v hresp hv hit⟩
      · have hv' : v.truthy = false := by
          cases hb : v.truthy with
          | true => exact absurd hb hv
          | false => rfl
        exact ⟨_, readLoop_break_general srv model dom fl L ord c h o acc total (k + 1)
          v hresp hv'⟩

/-- `execute_kw` ends in the state the (possibly trivial) authentication step
produced: the model call itself never mutates the instance. -/
theorem execute_kw_state_eq (c : OdooAPI) (srv : Server) (model method : String)
    (args : List PyVal) :
    (c.execute_kw srv model method args).state
      = (if c.uid.truthy then c else (c.authenticate srv).state) := by
  unfold OdooAPI.execute_kw
  cases hb : c.uid.truthy with
  | true =>
    simp only [hb, if_true]
    split <;> rfl
  | false =>
    simp only [hb, Bool.false_eq_true, if_false]
    split <;> first | rfl | (split <;> rfl)

theorem authenticate_creds (c : OdooAPI) (srv : Server) :
    creds (c.authenticate srv).state = creds c := by
  unfold OdooAPI.authenticate
  cases c.uid <;> first
    | rfl
    | (cases hresp : srv (authCallOf c) with
        | ok v => rfl
        | error e => cases e <;> rfl)

theorem execute_kw_creds (c : OdooAPI) (srv : Server) (model method : String)
    (args : List PyVal) :
    creds (c.execute_kw srv model method args).state = creds c := by
  rw [execute_kw_state_eq]
  split
  · rfl
  · exact authenticate_creds c srv

theorem execute_kw_state_set (c : OdooAPI) (srv : Server) (model method : String)
    (args : List PyVal) (h : c.uid ≠ PyVal.none) :
    (c.execute_kw srv model method args).state = c := by
  rw [execute_kw_set c srv model method args h, wrapExec_state]

theorem execute_kw_calls_set (c : OdooAPI) (srv : Server) (model method : String)
    (args : List PyVal) (h : c.uid ≠ PyVal.none) :
    (c.execute_kw srv model method args).calls = [execCallOf c model method args] := by
  rw [execute_kw_set c srv model method args h, wrapExec_calls]

theorem execute_kw_result_set (c : OdooAPI) (srv : Server) (model method : String)
    (args : List PyVal) (h : c.uid ≠ PyVal.none) :
    (c.execute_kw srv model method args).result = srv (execCallOf c model method args) := by
  rw [execute_kw_set c srv model method args h, wrapExec_result]

/-- `create_record` is `execute_kw(model, 'create', [values])` up to the
extra log entry its own `except` clause emits on a fault. -/
theorem create_record_components (c : OdooAPI) (srv : Server) (model : String)
    (values : PyVal) :
    (c.create_record srv model values).result
        = (c.execute_kw srv model "create" [values]).result
    ∧ (c.create_record srv model values).state
        = (c.execute_kw srv model "create" [values]).state
    ∧ (c.create_record srv model values).calls
        = (c.execute_kw srv model "create" [values]).calls := by
  unfold OdooAPI.create_record
  simp only []
  split
  · rename_i heq
    exact ⟨by rw [heq], rfl, rfl⟩
  · exact ⟨rfl, rfl, rfl⟩

/-- `update_record` is `execute_kw(model, 'write', [[record_id], values])`
with the result discarded, up to the extra log entry on a fault. -/
theorem update_record_components (c : OdooAPI) (srv : Server) (model : String)
    (rid values : PyVal) :
    (c.update_record srv model rid values).result
        = Except.map (fun _ => ())
            (c.execute_kw srv model "write" [PyVal.list [rid], values]).result
    ∧ (c.update_record srv model rid values).state
        = (c.execute_kw srv model "write" [PyVal.list [rid], values]).state
    ∧ (c.update_record srv model rid values).calls
        = (c.execute_kw srv model "write" [PyVal.list [rid], values]).calls := by
  unfold OdooAPI.update_record
  simp only []
  split <;> (rename_i heq; exact ⟨by rw [heq]; rfl, rfl, rfl⟩)

/-- `delete_record` is `execute_kw(model, 'unlink', [[record_id]])` with the
result discarded, up to the extra log entry on a fault. -/
theorem delete_record_components (c : OdooAPI) (srv : Server) (model : String)
    (rid : PyVal) :
    (c.delete_record srv model rid).result
        = Except.map (fun _ => ())
            (c.execute_kw srv model "unlink" [PyVal.list [rid]]).result
    ∧ (c.delete_record srv model rid).state
        = (c.execute_kw srv model "unlink" [PyVal.list [rid]]).state
    ∧ (c.delete_record srv model rid).calls
        = (c.execute_kw srv model "unlink" [PyVal.list [rid]]).calls := by
  unfold OdooAPI.delete_record
  simp only []
  split <;> (rename_i heq; exact ⟨by rw [heq]; rfl, rfl, rfl⟩)

/-- Any terminating run of the pagination loop preserves the stored
credentials, whatever the initial identity state. -/
theorem readLoop_creds (srv : Server) (model : String) (dom fl : PyVal)
    (L : Int) (ord : String) :
    ∀ (fuel : Nat) (c : OdooAPI) (o : Int) (acc : List PyVal) (total : Nat)
      (r : Res (List PyVal)),
      OdooAPI.readLoop srv model dom fl L ord c o acc total fuel = some r →
      creds r.state = creds c := by
  intro fuel
  induction fuel with
  | zero =>
    intro c o acc total r hr
    simp [OdooAPI.readLoop] at hr
  | succ n ih =>
    intro c o acc total r hr
    simp only [OdooAPI.readLoop] at hr
    split at hr
    · simp only [Option.some.injEq] at hr
      subst hr
      exact execute_kw_creds c srv model "search_read" _
    · split at hr
      · split at hr
        · split at hr
          · exact absurd hr (by simp)
          · rename_i rest hrec
            simp only [Option.some.injEq] at hr
            subst hr
            have h1 := ih _ _ _ _ rest hrec
            rw [h1]
            exact execute_kw_creds c srv model "search_read" _
        · simp only [Option.some.injEq] at hr
          subst hr
          exact execute_kw_creds c srv model "search_read" _
      · simp only [Option.some.injEq] at hr
        subst hr
        exact execute_kw_creds c srv model "search_read" _

/-! ### Claim theorems -/

/-- Claim C7: `update(model, record_id, values)` performs exactly
`invoke(model, "write", [[record_id], values])` and returns no value, and
`delete(model, record_id)` performs exactly `invoke(model, "unlink",
[[record_id]])` and returns no value: both forward the exact record
identifier wrapped in a single-element list, and `update` forwards the
values payload unmodified.  (Result, state and issued calls all agree with
the underlying `execute_kw` call; the result value is discarded.) -/
theorem C7_update_delete_forward (c : OdooAPI) (srv : Server) (model : String)
    (rid values : PyVal) :
    ((c.update_record srv model rid values).result
        = Except.map (fun _ => ())
            (c.execute_kw srv model "write" [PyVal.list [rid], values]).result
      ∧ (c.update_record srv model rid values).state
        = (c.execute_kw srv model "write" [PyVal.list [rid], values]).state
      ∧ (c.update_record srv model rid values).calls
        = (c.execute_kw srv model "write" [PyVal.list [rid], values]).calls)
    ∧ ((c.delete_record srv model rid).result
        = Except.map (fun _ => ())
            (c.execute_kw srv model "unlink" [PyVal.list [rid]]).result
      ∧ (c.delete_record srv model rid).state
        = (c.execute_kw srv model "unlink" [PyVal.list [rid]]).state
      ∧ (c.delete_record srv model rid).calls
        = (c.execute_kw srv model "unlink" [PyVal.list [rid]]).calls) :=
  ⟨update_record_components c srv model rid values,
   delete_record_components c srv model rid⟩

/-- Claim C8: `create(model, values)` performs exactly
`invoke(model, "create", [values])` and returns the server's response
unmodified as the new record's identifier, for every model and values
mapping. -/
theorem C8_create_forwards (c : OdooAPI) (srv : Server) (model : String)
    (values : PyVal) :
    ((c.create_record srv model values).result
        = (c.execute_kw srv model "create" [values]).result
      ∧ (c.create_record srv model values).state
        = (c.execute_kw srv model "create" [values]).state
      ∧ (c.create_record srv model values).calls
        = (c.execute_kw srv model "create" [values]).calls)
    ∧ (∀ v, c.uid ≠ PyVal.none →
        srv (execCallOf c model "create" [values]) = Except.ok v →
        (c.create_record srv model values).result = Except.ok v) := by
  refine ⟨create_record_components c srv model values, ?_⟩
  intro v h hok
  rw [(create_record_components c srv model values).1,
    execute_kw_result_set c srv model "create" [values] h, hok]

/-- Witness for C8: against a server answering the create call with
identifier 77, `create_record` returns exactly that identifier. -/
theorem C8_create_forwards_witness :
    (cAuth.create_record srvId77 "res.partner"
        (PyVal.dict [("name", PyVal.str "Acme")])).result
      = Except.ok (PyVal.int 77) :=
  (C8_create_forwards cAuth srvId77 "res.partner"
      (PyVal.dict [("name", PyVal.str "Acme")])).2
    (PyVal.int 77) (fun hh => PyVal.noConfusion hh) rfl

/-- Successful authentication from the unset state stores the returned value
as the identity and issues exactly one authentication call. -/
theorem authenticate_unset_ok (c : OdooAPI) (srv : Server) (v : PyVal)
    (h : c.uid = PyVal.none) (hv : srv (authCallOf c) = Except.ok v) :
    c.authenticate srv = ⟨Except.ok (), { c with uid := v }, [authCallOf c], []⟩ := by
  simp [OdooAPI.authenticate, h, hv]

/-- A protocol fault during authentication from the unset state is logged
and re-raised; the state is unchanged. -/
theorem authenticate_unset_fault (c : OdooAPI) (srv : Server) (s : String)
    (h : c.uid = PyVal.none) (hv : srv (authCallOf c) = Except.error (Exc.fault s)) :
    c.authenticate srv = ⟨Except.error (Exc.fault s), c, [authCallOf c],
      [LogEntry.error ("Authentication failed: " ++ s)]⟩ := by
  simp [OdooAPI.authenticate, h, hv]

/-- Any other exception during authentication from the unset state is logged
and re-raised; the state is unchanged. -/
theorem authenticate_unset_other (c : OdooAPI) (srv : Server) (m : String)
    (h : c.uid = PyVal.none) (hv : srv (authCallOf c) = Except.error (Exc.other m)) :
    c.authenticate srv = ⟨Except.error (Exc.other m), c, [authCallOf c],
      [LogEntry.error ("Unexpected error during authentication: " ++ m)]⟩ := by
  simp [OdooAPI.authenticate, h, hv]

/-- Claim C2: `invoke(model, method, args)` with the identity unset issues
exactly one authentication call followed by exactly one model call (when the
authentication call succeeds, returning `v`, which the model call then
carries); with the identity already set it issues zero authentication calls
and exactly one model call forwarding
`(database, identity, secret, model, method, args)`. -/
theorem C2_invoke_call_pattern (c : OdooAPI) (srv : Server) (model method : String)
    (args : List PyVal) :
    (∀ v, c.uid = PyVal.none → srv (authCallOf c) = Except.ok v →
      (c.execute_kw srv model method args).calls
        = [authCallOf c,
           RemoteCall.exec ⟨c.db_name, v, c.password, model, method, args⟩])
    ∧ (c.uid ≠ PyVal.none →
      (c.execute_kw srv model method args).calls
        = [RemoteCall.exec ⟨c.db_name, c.uid, c.password, model, method, args⟩]) := by
  constructor
  · intro v hnone hauth
    have htr : c.uid.truthy = false := by rw [hnone]; rfl
    unfold OdooAPI.execute_kw
    simp only [htr, Bool.false_eq_true, if_false]
    rw [authenticate_unset_ok c srv v hnone hauth]
    cases hresp : srv (execCallOf { c with uid := v } model method args) with
    | ok w => simp [hresp, execCallOf]
    | error e => cases e <;> simp [hresp, execCallOf]
  · intro h
    exact execute_kw_calls_set c srv model method args h

/-- Witness for C2: a fresh client's invoke issues one authentication call
then one model call carrying the new identity; an authenticated client's
invoke issues only the model call. -/
theorem C2_invoke_call_pattern_witness :
    (cFresh.execute_kw srvAuthOk "res.partner" "read" []).calls
      = [RemoteCall.auth ⟨"mydb", "alice", "secret", []⟩,
         RemoteCall.exec ⟨"mydb", PyVal.int 7, "secret", "res.partner", "read", []⟩]
    ∧ (cAuth.execute_kw srvAuthOk "res.partner" "read" []).calls
      = [RemoteCall.exec ⟨"mydb", PyVal.int 7, "secret", "res.partner", "read", []⟩] :=
  ⟨(C2_invoke_call_pattern cFresh srvAuthOk "res.partner" "read" []).1
      (PyVal.int 7) rfl rfl,
   (C2_invoke_call_pattern cAuth srvAuthOk "res.partner" "read" []).2
      (fun hh => PyVal.noConfusion hh)⟩

/-- Claim C5: `authenticate()` is idempotent.  From the unset state a
successful first call (storing a non-`None` identity - the transport cannot
deliver `None` as a result) issues exactly one authentication call, and the
immediately following second call is a complete no-op: no remote call, no
log entry, state unchanged.  Any call made with the identity already set is
such a no-op. -/
theorem C5_authenticate_idempotent (c : OdooAPI) (srv : Server) :
    (∀ v, c.uid = PyVal.none → srv (authCallOf c) = Except.ok v → v ≠ PyVal.none →
      (c.authenticate srv).calls = [authCallOf c]
      ∧ ((c.authenticate srv).state.authenticate srv
          = ⟨Except.ok (), (c.authenticate srv).state, [], []⟩))
    ∧ (c.uid ≠ PyVal.none → c.authenticate srv = ⟨Except.ok (), c, [], []⟩) := by
  constructor
  · intro v hnone hok hvn
    rw [authenticate_unset_ok c srv v hnone hok]
    exact ⟨rfl, authenticate_noop _ srv hvn⟩
  · exact authenticate_noop c srv

/-- Witness for C5: two successive authenticate calls of a fresh client
against a succeeding server issue one authentication call in total. -/
theorem C5_authenticate_idempotent_witness :
    (cFresh.authenticate srvAuthOk).calls
        = [RemoteCall.auth ⟨"mydb", "alice", "secret", []⟩]
    ∧ ((cFresh.authenticate srvAuthOk).state.authenticate srvAuthOk
        = ⟨Except.ok (), (cFresh.authenticate srvAuthOk).state, [], []⟩) :=
  (C5_authenticate_idempotent cFresh srvAuthOk).1 (PyVal.int 7) rfl rfl
    (fun hh => PyVal.noConfusion hh)

/-- Top-level version of `readLoop_preserve` for `read_records`. -/
theorem read_records_preserve (c : OdooAPI) (srv : Server) (model : String)
    (domain fields : PyVal) (o L : Int) (ord : String) (h : c.uid ≠ PyVal.none)
    (fuel : Nat) (r : Res (List PyVal))
    (hr : c.read_records srv model domain fields o L ord fuel = some r) :
    r.state = c ∧ ∀ call ∈ r.calls, call.execUid = some c.uid :=
  readLoop_preserve srv model
    (if domain.truthy then domain else PyVal.list [])
    (if fields.truthy then fields else PyVal.list [])
    L ord c h fuel o [] 0 r hr

/-- Claim C3: identity lifecycle.  The identity is unset at construction; it
is assigned only by a successful authentication from the unset state (a
failed one leaves it unset); once set (not `None`) it is never modified by
any operation, every model call carries exactly that identity, and no
operation issues an authentication call. -/
theorem C3_identity_lifecycle (base db user pw : String) (c : OdooAPI) (srv : Server)
    (model method : String) (args : List PyVal) (values rid domain fields : PyVal)
    (o L : Int) (ord : String) :
    (OdooAPI.init base db user pw).uid = PyVal.none
    ∧ (∀ v, c.uid = PyVal.none → srv (authCallOf c) = Except.ok v →
        (c.authenticate srv).state = { c with uid := v })
    ∧ (∀ e, c.uid = PyVal.none → srv (authCallOf c) = Except.error e →
        (c.authenticate srv).state = c)
    ∧ (c.uid ≠ PyVal.none →
        c.authenticate srv = ⟨Except.ok (), c, [], []⟩
        ∧ (c.execute_kw srv model method args).state = c
        ∧ (∀ call ∈ (c.execute_kw srv model method args).calls,
            call.execUid = some c.uid)
        ∧ (c.create_record srv model values).state = c
        ∧ (∀ call ∈ (c.create_record srv model values).calls,
            call.execUid = some c.uid)
        ∧ (c.update_record srv model rid values).state = c
        ∧ (∀ call ∈ (c.update_record srv model rid values).calls,
            call.execUid = some c.uid)
        ∧ (c.delete_record srv model rid).state = c
        ∧ (∀ call ∈ (c.delete_record srv model rid).calls,
            call.execUid = some c.uid)
        ∧ (∀ fuel r, c.read_records srv model domain fields o L ord fuel = some r →
            r.state = c ∧ ∀ call ∈ r.calls, call.execUid = some c.uid)) := by
  refine ⟨rfl, ?_, ?_, ?_⟩
  · intro v hnone hok
    rw [authenticate_unset_ok c srv v hnone hok]
  · intro e hnone herr
    cases e with
    | fault s => rw [authenticate_unset_fault c srv s hnone herr]
    | other m => rw [authenticate_unset_other c srv m hnone herr]
  · intro h
    have hex : ∀ (meth : String) (a : List PyVal),
        ∀ call ∈ (c.execute_kw srv model meth a).calls, call.execUid = some c.uid := by
      intro meth a call hc
      rw [execute_kw_calls_set c srv model meth a h] at hc
      simp only [List.mem_singleton] at hc
      subst hc
      rfl
    refine ⟨authenticate_noop c srv h,
      execute_kw_state_set c srv model method args h,
      hex method args, ?_, ?_, ?_, ?_, ?_, ?_, ?_⟩
    · rw [(create_record_components c srv model values).2.1]
      exact execute_kw_state_set c srv model "create" [values] h
    · intro call hc
      rw [(create_record_components c srv model values).2.2] at hc
      exact hex "create" [values] call hc
    · rw [(update_record_components c srv model rid values).2.1]
      exact execute_kw_state_set c srv model "write" [PyVal.list [rid], values] h
    · intro call hc
      rw [(update_record_components c srv model rid values).2.2] at hc
      exact hex "write" [PyVal.list [rid], values] call hc
    · rw [(delete_record_components c srv model rid).2.1]
      exact execute_kw_state_set c srv model "unlink" [PyVal.list [rid]] h
    · intro call hc
      rw [(delete_record_components c srv model rid).2.2] at hc
      exact hex "unlink" [PyVal.list [rid]] call hc
    · intro fuel r hr
      exact read_records_preserve c srv model domain fields o L ord h fuel r hr

/-- Witness for C3: a fresh client's identity is unset; a successful
authentication sets it to the server's value; an authenticated client's
invoke leaves the state unchanged. -/
theorem C3_identity_lifecycle_witness :
    (OdooAPI.init "https://odoo.example.org" "mydb" "alice" "secret").uid = PyVal.none
    ∧ (cFresh.authenticate srvAuthOk).state = { cFresh with uid := PyVal.int 7 }
    ∧ (cAuth.execute_kw srvAuthOk "res.partner" "read" []).state = cAuth :=
  ⟨(C3_identity_lifecycle "https://odoo.example.org" "mydb" "alice" "secret"
      cFresh srvAuthOk "res.partner" "read" [] PyVal.none PyVal.none PyVal.none
      PyVal.none 0 50 "id desc").1,
   (C3_identity_lifecycle "https://odoo.example.org" "mydb" "alice" "secret"
      cFresh srvAuthOk "res.partner" "read" [] PyVal.none PyVal.none PyVal.none
      PyVal.none 0 50 "id desc").2.1 (PyVal.int 7) rfl rfl,
   ((C3_identity_lifecycle "https://odoo.example.org" "mydb" "alice" "secret"
      cAuth srvAuthOk "res.partner" "read" [] PyVal.none PyVal.none PyVal.none
      PyVal.none 0 50 "id desc").2.2.2
      (fun hh => PyVal.noConfusion hh)).2.1⟩

/-- Claim C9: if authentication returns a falsy value other than `None`
(e.g. `False` for rejected credentials), the client stores it as the
identity; afterwards `authenticate()` is a no-op issuing no remote call
(`uid is not None`), yet `invoke()` still re-enters `authenticate` (its
`not self.uid` check sees a falsy identity), which issues no call, and the
falsy identity is forwarded to every model call; no operation can ever
replace it. -/
theorem C9_falsy_identity (c : OdooAPI) (srv srv2 : Server) (v : PyVal)
    (model method : String) (args : List PyVal) (values : PyVal)
    (domain fields : PyVal) (o L : Int) (ord : String)
    (hc : c.uid = PyVal.none) (hv : srv (authCallOf c) = Except.ok v)
    (hfalsy : v.truthy = false) (hnn : v ≠ PyVal.none) :
    (c.authenticate srv).state.uid = v
    ∧ (c.authenticate srv).state.uid.truthy = false
    ∧ ((c.authenticate srv).state.authenticate srv2
        = ⟨Except.ok (), (c.authenticate srv).state, [], []⟩)
    ∧ ((c.authenticate srv).state.execute_kw srv2 model method args).calls
        = [RemoteCall.exec ⟨c.db_name, v, c.password, model, method, args⟩]
    ∧ ((c.authenticate srv).state.execute_kw srv2 model method args).state.uid = v
    ∧ ((c.authenticate srv).state.create_record srv2 model values).state.uid = v
    ∧ (∀ fuel r, (c.authenticate srv).state.read_records srv2 model domain fields
          o L ord fuel = some r → r.state.uid = v) := by
  rw [authenticate_unset_ok c srv v hc hv]
  have hne : ({ c with uid := v } : OdooAPI).uid ≠ PyVal.none := hnn
  refine ⟨rfl, hfalsy, authenticate_noop _ srv2 hne,
    execute_kw_calls_set _ srv2 model method args hne, ?_, ?_, ?_⟩
  · rw [execute_kw_state_set _ srv2 model method args hne]
  · rw [(create_record_components _ srv2 model values).2.1,
      execute_kw_state_set _ srv2 model "create" [values] hne]
  · intro fuel r hr
    rw [(read_records_preserve _ srv2 model domain fields o L ord hne fuel r hr).1]

/-- Witness for C9: rejected credentials (`False` from the server) are
stored as the identity, later authenticate calls are silent no-ops, and the
model call carries `False`. -/
theorem C9_falsy_identity_witness :
    (cFresh.authenticate srvReject).state.uid = PyVal.bool false
    ∧ ((cFresh.authenticate srvReject).state.authenticate srvReject
        = ⟨Except.ok (), (cFresh.authenticate srvReject).state, [], []⟩)
    ∧ ((cFresh.authenticate srvReject).state.execute_kw srvReject
          "res.partner" "read" []).calls
        = [RemoteCall.exec ⟨"mydb", PyVal.bool false, "secret",
             "res.partner", "read", []⟩] := by
  have h := C9_falsy_identity cFresh srvReject srvReject (PyVal.bool false)
    "res.partner" "read" [] PyVal.none PyVal.none PyVal.none 0 50 "id desc"
    rfl rfl rfl (fun hh => PyVal.noConfusion hh)
  exact ⟨h.1, h.2.2.1, h.2.2.2.1⟩

/-- A protocol fault on the model call (identity set): logged and re-raised. -/
theorem execute_kw_fault (c : OdooAPI) (srv : Server) (model method : String)
    (args : List PyVal) (s : String) (h : c.uid ≠ PyVal.none)
    (hresp : srv (execCallOf c model method args) = Except.error (Exc.fault s)) :
    c.execute_kw srv model method args
      = ⟨Except.error (Exc.fault s), c, [execCallOf c model method args],
         [LogEntry.error ("Odoo API call failed: " ++ s)]⟩ := by
  rw [execute_kw_set c srv model method args h, hresp]
  rfl

/-- A non-fault exception on the model call (identity set): re-raised
unchanged, but not logged (the `try` only catches `xmlrpc.client.Fault`). -/
theorem execute_kw_other (c : OdooAPI) (srv : Server) (model method : String)
    (args : List PyVal) (m : String) (h : c.uid ≠ PyVal.none)
    (hresp : srv (execCallOf c model method args) = Except.error (Exc.other m)) :
    c.execute_kw srv model method args
      = ⟨Except.error (Exc.other m), c, [execCallOf c model method args], []⟩ := by
  rw [execute_kw_set c srv model method args h, hresp]
  rfl

/-- A fault during `create_record` (identity set): logged twice (once by
`execute_kw`, once by `create_record`) and re-raised. -/
theorem create_record_fault (c : OdooAPI) (srv : Server) (model : String)
    (values : PyVal) (s : String) (h : c.uid ≠ PyVal.none)
    (hresp : srv (execCallOf c model "create" [values]) = Except.error (Exc.fault s)) :
    c.create_record srv model values
      = ⟨Except.error (Exc.fault s), c, [execCallOf c model "create" [values]],
         [LogEntry.error ("Odoo API call failed: " ++ s),
          LogEntry.error ("Create operation failed: " ++ s)]⟩ := by
  unfold OdooAPI.create_record
  rw [execute_kw_fault c srv model "create" [values] s h hresp]
  rfl

/-- A fault during `update_record` (identity set): logged twice, re-raised. -/
theorem update_record_fault (c : OdooAPI) (srv : Server) (model : String)
    (rid values : PyVal) (s : String) (h : c.uid ≠ PyVal.none)
    (hresp : srv (execCallOf c model "write" [PyVal.list [rid], values])
      = Except.error (Exc.fault s)) :
    c.update_record srv model rid values
      = ⟨Except.error (Exc.fault s), c,
         [execCallOf c model "write" [PyVal.list [rid], values]],
         [LogEntry.error ("Odoo API call failed: " ++ s),
          LogEntry.error ("Update operation failed: " ++ s)]⟩ := by
  unfold OdooAPI.update_record
  rw [execute_kw_fault c srv model "write" [PyVal.list [rid], values] s h hresp]
  rfl

/-- A fault during `delete_record` (identity set): logged twice, re-raised. -/
theorem delete_record_fault (c : OdooAPI) (srv : Server) (model : String)
    (rid : PyVal) (s : String) (h : c.uid ≠ PyVal.none)
    (hresp : srv (execCallOf c model "unlink" [PyVal.list [rid]])
      = Except.error (Exc.fault s)) :
    c.delete_record srv model rid
      = ⟨Except.error (Exc.fault s), c,
         [execCallOf c model "unlink" [PyVal.list [rid]]],
         [LogEntry.error ("Odoo API call failed: " ++ s),
          LogEntry.error ("Delete operation failed: " ++ s)]⟩ := by
  unfold OdooAPI.delete_record
  rw [execute_kw_fault c srv model "unlink" [PyVal.list [rid]] s h hresp]
  rfl

/-- Counterexample to C4 as stated: a non-fault transport error from the
model call is re-raised to the caller, but `execute_kw` only catches
`xmlrpc.client.Fault`, so this failure produces no log entry at all. -/
theorem C4_counterexample :
    (cAuth.execute_kw srvOther "res.partner" "read" []).result
        = Except.error (Exc.other "connection reset")
    ∧ (cAuth.execute_kw srvOther "res.partner" "read" []).log = [] :=
  ⟨rfl, rfl⟩

/-- Claim C4, amended: every failure during authentication, and every
protocol-level fault during a model call (including those underlying
create/read/update/delete), is logged at error severity with the server's
fault text and re-raised unchanged, with no retry and no suppression; a
non-fault failure during a model call is re-raised unchanged but without a
log entry. -/
theorem C4_failure_logging (c : OdooAPI) (srv : Server) (model method : String)
    (args : List PyVal) (values rid domain fields : PyVal) (o L : Int)
    (ord : String) (s m : String) :
    (c.uid = PyVal.none → srv (authCallOf c) = Except.error (Exc.fault s) →
      c.authenticate srv = ⟨Except.error (Exc.fault s), c, [authCallOf c],
        [LogEntry.error ("Authentication failed: " ++ s)]⟩)
    ∧ (c.uid = PyVal.none → srv (authCallOf c) = Except.error (Exc.other m) →
      c.authenticate srv = ⟨Except.error (Exc.other m), c, [authCallOf c],
        [LogEntry.error ("Unexpected error during authentication: " ++ m)]⟩)
    ∧ (c.uid ≠ PyVal.none →
        srv (execCallOf c model method args) = Except.error (Exc.fault s) →
      c.execute_kw srv model method args
        = ⟨Except.error (Exc.fault s), c, [execCallOf c model method args],
           [LogEntry.error ("Odoo API call failed: " ++ s)]⟩)
    ∧ (c.uid ≠ PyVal.none →
        srv (execCallOf c model method args) = Except.error (Exc.other m) →
      c.execute_kw srv model method args
        = ⟨Except.error (Exc.other m), c, [execCallOf c model method args], []⟩)
    ∧ (c.uid ≠ PyVal.none →
        srv (execCallOf c model "create" [values]) = Except.error (Exc.fault s) →
      c.create_record srv model values
        = ⟨Except.error (Exc.fault s), c, [execCallOf c model "create" [values]],
           [LogEntry.error ("Odoo API call failed: " ++ s),
            LogEntry.error ("Create operation failed: " ++ s)]⟩)
    ∧ (c.uid ≠ PyVal.none →
        srv (execCallOf c model "write" [PyVal.list [rid], values])
          = Except.error (Exc.fault s) →
      c.update_record srv model rid values
        = ⟨Except.error (Exc.fault s), c,
           [execCallOf c model "write" [PyVal.list [rid], values]],
           [LogEntry.error ("Odoo API call failed: " ++ s),
            LogEntry.error ("Update operation failed: " ++ s)]⟩)
    ∧ (c.uid ≠ PyVal.none →
        srv (execCallOf c model "unlink" [PyVal.list [rid]])
          = Except.error (Exc.fault s) →
      c.delete_record srv model rid
        = ⟨Except.error (Exc.fault s), c,
           [execCallOf c model "unlink" [PyVal.list [rid]]],
           [LogEntry.error ("Odoo API call failed: " ++ s),
            LogEntry.error ("Delete operation failed: " ++ s)]⟩)
    ∧ (c.uid ≠ PyVal.none →
        srv (readCallAt c model domain fields o L ord) = Except.error (Exc.fault s) →
        ∀ fuel, 1 ≤ fuel →
      c.read_records srv model domain fields o L ord fuel
        = some ⟨Except.error (Exc.fault s), c,
                [readCallAt c model domain fields o L ord],
                [LogEntry.error ("Odoo API call failed: " ++ s)]⟩) := by
  refine ⟨authenticate_unset_fault c srv s, authenticate_unset_other c srv m,
    fun h => execute_kw_fault c srv model method args s h,
    fun h => execute_kw_other c srv model method args m h,
    fun h => create_record_fault c srv model values s h,
    fun h => update_record_fault c srv model rid values s h,
    fun h => delete_record_fault c srv model rid s h, ?_⟩
  intro h hresp fuel hfuel
  obtain ⟨n, rfl⟩ : ∃ n, fuel = n + 1 := ⟨fuel - 1, by omega⟩
  exact readLoop_fault_step srv model
    (if domain.truthy then domain else PyVal.list [])
    (if fields.truthy then fields else PyVal.list [])
    L ord c h o [] 0 n s hresp

/-- Witness for the amended C4: against a faulting server, invoke raises the
fault with its message and one log entry; a read does the same. -/
theorem C4_failure_logging_witness :
    (cAuth.execute_kw srvFault "res.partner" "read" []).result
        = Except.error (Exc.fault "boom")
    ∧ (cAuth.execute_kw srvFault "res.partner" "read" []).log
        = [LogEntry.error "Odoo API call failed: boom"]
    ∧ cAuth.read_records srvFault "res.partner" PyVal.none PyVal.none 0 50
        "id desc" 1
      = some ⟨Except.error (Exc.fault "boom"), cAuth,
          [RemoteCall.exec ⟨"mydb", PyVal.int 7, "secret", "res.partner",
             "search_read", [PyVal.list [], PyVal.list [], PyVal.int 0,
               PyVal.int 50, PyVal.str "id desc"]⟩],
          [LogEntry.error "Odoo API call failed: boom"]⟩ := by
  have h := C4_failure_logging cAuth srvFault "res.partner" "read" []
    PyVal.none PyVal.none PyVal.none PyVal.none 0 50 "id desc" "boom" "oops"
  have hne : cAuth.uid ≠ PyVal.none := fun hh => PyVal.noConfusion hh
  refine ⟨?_, ?_, ?_⟩
  · rw [h.2.2.1 hne rfl]
  · rw [h.2.2.1 hne rfl]
    rfl
  · exact h.2.2.2.2.2.2.2 hne rfl 1 (by omega)


/-- Counterexample to C10 as stated: from the unauthenticated state, an
invoke whose authentication step succeeds (storing identity 7) and whose
model call then faults raises the fault to the caller, yet leaves the
identity field changed from `None` to 7 - the failed operation did mutate
the client's state. -/
theorem C10_counterexample :
    cFresh.uid = PyVal.none
    ∧ (cFresh.execute_kw srvFault "res.partner" "read" []).result
        = Except.error (Exc.fault "boom")
    ∧ (cFresh.execute_kw srvFault "res.partner" "read" []).state.uid = PyVal.int 7 :=
  ⟨rfl, rfl, rfl⟩

/-- Claim C10, amended: the stored credentials (base address, database,
username, secret) are never changed by any operation; when the identity was
already set before the call, every operation - failed or not - leaves the
whole state unchanged; and a fault partway through read's pagination
discards all accumulated records: the result is the raised fault, never a
partial sequence.  (A failed invoke from the unauthenticated state may leave
the identity newly set by its successful authentication step.) -/
theorem C10_failure_state (c : OdooAPI) (srv : Server) (model method : String)
    (args : List PyVal) (values rid domain fields : PyVal) (o L : Int)
    (ord : String) (s : String) :
    creds (c.authenticate srv).state = creds c
    ∧ creds (c.execute_kw srv model method args).state = creds c
    ∧ creds (c.create_record srv model values).state = creds c
    ∧ creds (c.update_record srv model rid values).state = creds c
    ∧ creds (c.delete_record srv model rid).state = creds c
    ∧ (∀ fuel r, c.read_records srv model domain fields o L ord fuel = some r →
        creds r.state = creds c)
    ∧ (c.uid ≠ PyVal.none →
        (c.execute_kw srv model method args).state = c
        ∧ (c.create_record srv model values).state = c
        ∧ (c.update_record srv model rid values).state = c
        ∧ (c.delete_record srv model rid).state = c
        ∧ (∀ fuel r, c.read_records srv model domain fields o L ord fuel = some r →
            r.state = c))
    ∧ (c.uid ≠ PyVal.none →
        ∀ (k : Nat) (pages : Nat → List PyVal) (fuel : Nat), k + 1 ≤ fuel →
        (∀ i, i < k →
          srv (readCallAt c model domain fields (o + (i : Int) * L) L ord)
            = Except.ok (PyVal.list (pages i)) ∧ pages i ≠ []) →
        srv (readCallAt c model domain fields (o + (k : Int) * L) L ord)
            = Except.error (Exc.fault s) →
        c.read_records srv model domain fields o L ord fuel
          = some ⟨Except.error (Exc.fault s), c,
              (List.range (k + 1)).map (fun i : Nat =>
                readCallAt c model domain fields (o + (i : Int) * L) L ord),
              [LogEntry.error ("Odoo API call failed: " ++ s)]⟩) := by
  refine ⟨authenticate_creds c srv, execute_kw_creds c srv model method args,
    ?_, ?_, ?_, ?_, ?_, ?_⟩
  · rw [(create_record_components c srv model values).2.1]
    exact execute_kw_creds c srv model "create" [values]
  · rw [(update_record_components c srv model rid values).2.1]
    exact execute_kw_creds c srv model "write" [PyVal.list [rid], values]
  · rw [(delete_record_components c srv model rid).2.1]
    exact execute_kw_creds c srv model "unlink" [PyVal.list [rid]]
  · intro fuel r hr
    exact readLoop_creds srv model
      (if domain.truthy then domain else PyVal.list [])
      (if fields.truthy then fields else PyVal.list [])
      L ord fuel c o [] 0 r hr
  · intro h
    refine ⟨execute_kw_state_set c srv model method args h, ?_, ?_, ?_, ?_⟩
    · rw [(create_record_components c srv model values).2.1]
      exact execute_kw_state_set c srv model "create" [values] h
    · rw [(update_record_components c srv model rid values).2.1]
      exact execute_kw_state_set c srv model "write" [PyVal.list [rid], values] h
    · rw [(delete_record_components c srv model rid).2.1]
      exact execute_kw_state_set c srv model "unlink" [PyVal.list [rid]] h
    · intro fuel r hr
      exact (read_records_preserve c srv model domain fields o L ord h fuel r hr).1
  · intro h k pages fuel hfuel hpages hfault
    exact readLoop_fault srv model
      (if domain.truthy then domain else PyVal.list [])
      (if fields.truthy then fields else PyVal.list [])
      L ord c h k pages o [] 0 fuel s hfuel hpages hfault

/-- Witness for the amended C10: a fault on the second page of a read
discards the two records of the first page - the caller gets the raised
fault, the state is unchanged. -/
theorem C10_failure_state_witness :
    cAuth.read_records srvFaultPage2 "res.partner" PyVal.none PyVal.none 0 2
        "id desc" 2
      = some ⟨Except.error (Exc.fault "boom"), cAuth,
          [RemoteCall.exec ⟨"mydb", PyVal.int 7, "secret", "res.partner",
             "search_read", [PyVal.list [], PyVal.list [], PyVal.int 0,
               PyVal.int 2, PyVal.str "id desc"]⟩,
           RemoteCall.exec ⟨"mydb", PyVal.int 7, "secret", "res.partner",
             "search_read", [PyVal.list [], PyVal.list [], PyVal.int 2,
               PyVal.int 2, PyVal.str "id desc"]⟩],
          [LogEntry.error "Odoo API call failed: boom"]⟩ := by
  have h := (C10_failure_state cAuth srvFaultPage2 "res.partner" "read" []
      PyVal.none PyVal.none PyVal.none PyVal.none 0 2 "id desc"
      "boom").2.2.2.2.2.2.2
    (fun hh => PyVal.noConfusion hh) 1 (fun _ => [PyVal.int 1, PyVal.int 2]) 2
    (by omega)
    (by
      intro i hi
      interval_cases i
      exact ⟨rfl, by simp⟩)
    rfl
  exact h

/-- Claim C1: for every model, domain, fields, initial offset `o`, limit
`L`, order, and every server page function, `read` returns the
concatenation, in request order, of the record pages returned by successive
`search_read` invocations at offsets `o, o+L, o+2L, ...`, up to but
excluding the first empty page, and issues exactly those model calls (one
per page plus one for the empty page), for an authenticated client. -/
theorem C1_read_pagination (c : OdooAPI) (srv : Server) (model : String)
    (domain fields : PyVal) (o L : Int) (ord : String)
    (pages : Nat → List PyVal) (k : Nat) (fuel : Nat)
    (huid : c.uid ≠ PyVal.none) (hfuel : k + 1 ≤ fuel)
    (hpages : ∀ i, i < k →
      srv (readCallAt c model domain fields (o + (i : Int) * L) L ord)
        = Except.ok (PyVal.list (pages i)) ∧ pages i ≠ [])
    (hempty : srv (readCallAt c model domain fields (o + (k : Int) * L) L ord)
        = Except.ok (PyVal.list [])) :
    c.read_records srv model domain fields o L ord fuel
      = some ⟨Except.ok ((List.range k).flatMap pages), c,
          (List.range (k + 1)).map
            (fun i : Nat => readCallAt c model domain fields (o + (i : Int) * L) L ord),
          [LogEntry.info "No records to retrieve.",
           LogEntry.info ("Total records retrieved: "
             ++ toString ((List.range k).flatMap pages).length)]⟩ := by
  have h := readLoop_pages srv model
    (if domain.truthy then domain else PyVal.list [])
    (if fields.truthy then fields else PyVal.list [])
    L ord c huid k pages o [] 0 fuel hfuel hpages hempty
  simpa using h

/-- Witness for C1: at limit 2 a server answering pages of 2, 2 and 0
records makes read return the 4 records in page order with exactly 3 model
calls; a server whose first page is empty makes read return no records after
exactly 1 model call. -/
theorem C1_read_pagination_witness :
    (cAuth.read_records srv220 "res.partner" PyVal.none PyVal.none 0 2
        "id desc" 3
      = some ⟨Except.ok [PyVal.int 1, PyVal.int 2, PyVal.int 3, PyVal.int 4],
          cAuth,
          [RemoteCall.exec ⟨"mydb", PyVal.int 7, "secret", "res.partner",
             "search_read", [PyVal.list [], PyVal.list [], PyVal.int 0,
               PyVal.int 2, PyVal.str "id desc"]⟩,
           RemoteCall.exec ⟨"mydb", PyVal.int 7, "secret", "res.partner",
             "search_read", [PyVal.list [], PyVal.list [], PyVal.int 2,
               PyVal.int 2, PyVal.str "id desc"]⟩,
           RemoteCall.exec ⟨"mydb", PyVal.int 7, "secret", "res.partner",
             "search_read", [PyVal.list [], PyVal.list [], PyVal.int 4,
               PyVal.int 2, PyVal.str "id desc"]⟩],
          [LogEntry.info "No records to retrieve.",
           LogEntry.info "Total records retrieved: 4"]⟩)
    ∧ (cAuth.read_records srvAuthOk "res.partner" PyVal.none PyVal.none 0 50
        "id desc" 1
      = some ⟨Except.ok [], cAuth,
          [RemoteCall.exec ⟨"mydb", PyVal.int 7, "secret", "res.partner",
             "search_read", [PyVal.list [], PyVal.list [], PyVal.int 0,
               PyVal.int 50, PyVal.str "id desc"]⟩],
          [LogEntry.info "No records to retrieve.",
           LogEntry.info "Total records retrieved: 0"]⟩) := by
  constructor
  · have h := C1_read_pagination cAuth srv220 "res.partner" PyVal.none PyVal.none
      0 2 "id desc" pages220 2 3 (fun hh => PyVal.noConfusion hh) (by omega)
      (by
        intro i hi
        interval_cases i
        · exact ⟨rfl, by simp [pages220]⟩
        · exact ⟨rfl, by simp [pages220]⟩)
      rfl
    exact h
  · have h := C1_read_pagination cAuth srvAuthOk "res.partner" PyVal.none
      PyVal.none 0 50 "id desc" (fun _ => []) 0 1
      (fun hh => PyVal.noConfusion hh) (by omega)
      (by intro i hi; omega)
      rfl
    exact h

/-- The pagination loop never finishes against `srvShort`: every page holds
one record (fewer than the limit of 2), so the `if not records` break is
never taken. -/
theorem srvShort_loop_none :
    ∀ (fuel : Nat) (o : Int) (acc : List PyVal) (total : Nat),
      OdooAPI.readLoop srvShort "res.partner" (PyVal.list []) (PyVal.list [])
        2 "id desc" cAuth o acc total fuel = Option.none := by
  intro fuel
  induction fuel with
  | zero => intro o acc total; rfl
  | succ n ih =>
    intro o acc total
    exact readLoop_cons_none srvShort "res.partner" (PyVal.list [])
      (PyVal.list []) 2 "id desc" cAuth (fun hh => PyVal.noConfusion hh)
      o acc total n [PyVal.int 1] rfl (by simp)
      (ih (o + 2) (acc ++ [PyVal.int 1]) (total + 1))

/-- Counterexample to C6 as stated: against a server that answers every
`search_read` call with a single record - fewer than the limit of 2, so the
premise "the server eventually returns fewer than `limit` matching records
for some offset" holds at every offset - the pagination loop never
terminates: no amount of fuel makes `read_records` finish. -/
theorem C6_counterexample :
    ¬ ReadTerminates srvShort cAuth "res.partner" PyVal.none PyVal.none 0 2
        "id desc" := by
  rintro ⟨fuel, r, hr⟩
  have hnone : cAuth.read_records srvShort "res.partner" PyVal.none PyVal.none
      0 2 "id desc" fuel = Option.none := srvShort_loop_none fuel 0 [] 0
  rw [hnone] at hr
  exact Option.noConfusion hr

/-- Claim C6, amended: the pagination loop terminates whenever some offset
in the advancing sequence `o, o+L, o+2L, ...` yields an *empty* page
(returning fewer than `limit` but more than zero records does not stop it);
in particular read is total under the hypothesis that some offset in that
sequence yields an empty page, whatever the server answers elsewhere. -/
theorem C6_read_terminates_on_empty (c : OdooAPI) (srv : Server) (model : String)
    (domain fields : PyVal) (o L : Int) (ord : String) (k : Nat)
    (huid : c.uid ≠ PyVal.none)
    (hempty : srv (readCallAt c model domain fields (o + (k : Int) * L) L ord)
        = Except.ok (PyVal.list [])) :
    ReadTerminates srv c model domain fields o L ord := by
  obtain ⟨r, hr⟩ := readLoop_empty_terminates srv model
    (if domain.truthy then domain else PyVal.list [])
    (if fields.truthy then fields else PyVal.list [])
    L ord c huid k o [] 0 hempty
  exact ⟨k + 1, r, hr⟩

/-- Witness for the amended C6: a server whose first page is empty makes the
read of an authenticated client terminate. -/
theorem C6_read_terminates_on_empty_witness :
    ReadTerminates srvAuthOk cAuth "res.partner" PyVal.none PyVal.none 0 50
      "id desc" :=
  C6_read_terminates_on_empty cAuth srvAuthOk "res.partner" PyVal.none
    PyVal.none 0 50 "id desc" 0 (fun hh => PyVal.noConfusion hh) rfl
